import Mathlib

/-! Shallow embedding of the Real Estate Intelligence System's computational
core (valuation engine of `utils/calculations.py`, the engine variant in
`mock_analysis.py`, the input validators, the feedback log and the approval
workflow), with theorems settling the specification claims.

Real-number arithmetic is modelled by ℚ.  Python's `round(x, 2)` is
modelled by `round2`, built on round-half-to-even (Python's tie rule).
Fallible operations (division, dictionary access on a missing key) are
modelled with `Except`, so "never raises" is "always returns `.ok`". -/

/-- Round a rational to the nearest integer, halves going to the even
integer (Python's `round` tie-breaking rule). -/
def roundHalfEven (q : ℚ) : ℤ :=
  if q - ⌊q⌋ < 1/2 then ⌊q⌋
  else if 1/2 < q - ⌊q⌋ then ⌊q⌋ + 1
  else if Even ⌊q⌋ then ⌊q⌋ else ⌊q⌋ + 1

/-- Python's `round(x, 2)`: round to 2 decimal places. -/
def round2 (q : ℚ) : ℚ := (roundHalfEven (q * 100) : ℚ) / 100

/-- A rational that is a whole number of hundredths (a 2-decimal value). -/
def IsCents (q : ℚ) : Prop := ∃ m : ℤ, q = (m : ℚ) / 100

/-- Python's `a / b` on numbers: raises `ZeroDivisionError` on `b = 0`. -/
def pyDiv (a b : ℚ) : Except String ℚ :=
  if b = 0 then .error "ZeroDivisionError" else .ok (a / b)

/-- Python's `str.lower()` (ASCII case folding, as the inputs here are
ASCII), written structurally over the character list so that it computes
by reduction. -/
def pyLower (s : String) : String := ⟨s.data.map Char.toLower⟩

/-- Python's `str.strip()`: drop leading and trailing whitespace, written
structurally over the character list so that it computes by reduction. -/
def pyStrip (s : String) : String :=
  ⟨((s.data.dropWhile Char.isWhitespace).reverse.dropWhile
      Char.isWhitespace).reverse⟩

/-- A property-data record as consumed by the valuation engine (the
`property_data` dict with the keys the engine reads all present). -/
structure PropertyData where
  sqft : ℚ
  location_type : String
  neighborhood_rating : String
  condition : String
  age_years : ℚ

namespace Calculations

/-- `LOCATION_MULTIPLIERS` of `utils/calculations.py`. -/
def LOCATION_MULTIPLIERS : List (String × ℚ) :=
  [("downtown", 14/10), ("urban", 12/10), ("suburban", 1), ("rural", 7/10)]

/-- `NEIGHBORHOOD_FACTORS` of `utils/calculations.py`. -/
def NEIGHBORHOOD_FACTORS : List (String × ℚ) :=
  [("excellent", 13/10), ("good", 11/10), ("average", 1),
   ("developing", 85/100), ("poor", 6/10)]

/-- `CONDITION_FACTORS` of `utils/calculations.py`. -/
def CONDITION_FACTORS : List (String × ℚ) :=
  [("excellent", 12/10), ("good", 11/10), ("fair", 1),
   ("needs_repair", 75/100), ("poor", 5/10)]

/-- `calculate_base_valuation` of `utils/calculations.py` (rounds the final
valuation to 2 decimal places). -/
def calculate_base_valuation (property_data : PropertyData) : ℚ :=
  let base_price_per_sqft : ℚ := 150
  let sqft := property_data.sqft
  let location := pyLower property_data.location_type
  let neighborhood := pyLower property_data.neighborhood_rating
  let condition := pyLower property_data.condition
  let age_years := property_data.age_years
  let location_multiplier := (List.lookup location LOCATION_MULTIPLIERS).getD 1
  let neighborhood_multiplier := (List.lookup neighborhood NEIGHBORHOOD_FACTORS).getD 1
  let condition_multiplier := (List.lookup condition CONDITION_FACTORS).getD 1
  let age_factor := max (1/2) (1 - age_years * (2/100))
  let valuation := sqft * base_price_per_sqft * location_multiplier *
    neighborhood_multiplier * condition_multiplier * age_factor
  round2 valuation

/-- `calculate_price_per_sqft` of `utils/calculations.py`. -/
def calculate_price_per_sqft (valuation : ℚ) (sqft : ℤ) : Except String ℚ :=
  if sqft ≤ 0 then .ok 0
  else (pyDiv valuation (sqft : ℚ)).map (fun q => round2 q)

/-- `calculate_roi` of `utils/calculations.py`. -/
def calculate_roi (annual_return valuation : ℚ) : Except String ℚ :=
  if valuation ≤ 0 then .ok 0
  else (pyDiv annual_return valuation).map (fun q => round2 (q * 100))

/-- `calculate_payback_period` of `utils/calculations.py`; `⊤` models
Python's `float('inf')`. -/
def calculate_payback_period (valuation annual_return : ℚ) :
    Except String (WithTop ℚ) :=
  if annual_return ≤ 0 then .ok ⊤
  else (pyDiv valuation annual_return).map (fun q => ((round2 q : ℚ) : WithTop ℚ))

/-- `calculate_appreciation` of `utils/calculations.py` (the default
`appreciation_rate` is 0.045). -/
def calculate_appreciation (valuation appreciation_rate : ℚ) : ℚ :=
  round2 (valuation * appreciation_rate)

/-- `calculate_rental_income` of `utils/calculations.py` (the default
`rental_yield` is 0.065). -/
def calculate_rental_income (valuation rental_yield : ℚ) : ℚ :=
  round2 (valuation * rental_yield)

/-- `calculate_total_annual_return` of `utils/calculations.py`. -/
def calculate_total_annual_return (rental_income appreciation : ℚ) : ℚ :=
  round2 (rental_income + appreciation)

/-- `calculate_future_value` of `utils/calculations.py`. -/
def calculate_future_value (present_value annual_rate : ℚ) (years : ℤ) : ℚ :=
  if years ≤ 0 ∨ annual_rate < 0 then present_value
  else round2 (present_value * (1 + annual_rate) ^ years.toNat)

/-- `calculate_cumulative_return` of `utils/calculations.py`. -/
def calculate_cumulative_return (annual_amount : ℚ) (years : ℤ) : ℚ :=
  round2 (annual_amount * years)

/-- The location risk weights of `calculate_risk_level`. -/
def location_risk_map : List (String × ℤ) :=
  [("downtown", 2), ("urban", 2), ("suburban", 3), ("rural", 4)]

/-- The condition risk weights of `calculate_risk_level`. -/
def condition_risk_map : List (String × ℤ) :=
  [("excellent", 1), ("good", 2), ("fair", 3), ("needs_repair", 4), ("poor", 5)]

/-- `calculate_risk_level` of `utils/calculations.py`, including the dead
`elif age_years > 50: risk_score += 1` branch of the source. -/
def calculate_risk_level (location_type condition : String) (age_years : ℤ) :
    String :=
  let risk_score : ℤ := 0
  let risk_score := risk_score +
    (List.lookup (pyLower location_type) location_risk_map).getD 3
  let risk_score := risk_score +
    (List.lookup (pyLower condition) condition_risk_map).getD 3
  let risk_score := risk_score +
    (if age_years > 50 then 3 else if age_years > 30 then 2
     else if age_years > 50 then 1 else 0)
  let avg_risk : ℚ := (risk_score : ℚ) / 3
  if avg_risk < 3/2 then "low"
  else if avg_risk < 5/2 then "low-moderate"
  else if avg_risk < 7/2 then "moderate"
  else if avg_risk < 9/2 then "moderate-high"
  else "high"

end Calculations

namespace MockAnalysis

/-- `RealEstateAnalysisEngine.calculate_base_valuation` of
`mock_analysis.py` (same factor model, no rounding of the result). -/
def calculate_base_valuation (property_data : PropertyData) : ℚ :=
  let location := pyLower property_data.location_type
  let base_price_per_sqft : ℚ := 150
  let sqft := property_data.sqft
  let location_multiplier :=
    (List.lookup location Calculations.LOCATION_MULTIPLIERS).getD 1
  let neighborhood := pyLower property_data.neighborhood_rating
  let neighborhood_multiplier :=
    (List.lookup neighborhood Calculations.NEIGHBORHOOD_FACTORS).getD 1
  let condition := pyLower property_data.condition
  let condition_multiplier :=
    (List.lookup condition Calculations.CONDITION_FACTORS).getD 1
  let base_valuation := sqft * base_price_per_sqft * location_multiplier *
    neighborhood_multiplier * condition_multiplier
  let age := property_data.age_years
  let age_factor := max (1/2) (1 - age * (2/100))
  base_valuation * age_factor

/-- The three stored fields of the `investment_analysis` section built by
`RealEstateAnalysisEngine.analyze_property`. -/
structure InvestmentAnalysisFields where
  annual_rental_potential : ℚ
  annual_appreciation : ℚ
  total_annual_return : ℚ

/-- The `investment_analysis` assembly of
`RealEstateAnalysisEngine.analyze_property` (lines 108-110 and 218-220):
`annual_rental` and `property_appreciation` are computed from the estimated
valuation and the two uniform draws (5-8% rental yield, 3-6% appreciation),
then each stored field is rounded to 2 decimal places independently. -/
def investment_analysis_fields (estimated_valuation rental_yield_draw
    appreciation_rate_draw : ℚ) : InvestmentAnalysisFields :=
  let annual_rental := estimated_valuation * rental_yield_draw
  let property_appreciation := estimated_valuation * appreciation_rate_draw
  let total_annual_return := annual_rental + property_appreciation
  { annual_rental_potential := round2 annual_rental
    annual_appreciation := round2 property_appreciation
    total_annual_return := round2 total_annual_return }

/-- The `risk_assessment` section built by
`RealEstateAnalysisEngine.analyze_property`. -/
structure RiskAssessment where
  location_risk : String
  maintenance_risk : String
  market_risk : String
  liquidity_risk : String
  overall_risk : String

/-- The `risk_assessment` assembly of
`RealEstateAnalysisEngine.analyze_property` (lines 141-160 and 227-233). -/
def risk_assessment (location_type condition : String) : RiskAssessment :=
  let lt := pyLower location_type
  let c := pyLower condition
  let location_risk :=
    if lt = "downtown" then "low"
    else if lt = "urban" then "low-moderate"
    else if lt = "suburban" then "moderate"
    else "moderate-high"
  let maintenance_risk :=
    if c = "excellent" then "low"
    else if c = "good" then "low-moderate"
    else if c = "fair" then "moderate"
    else "high"
  { location_risk := location_risk
    maintenance_risk := maintenance_risk
    market_risk := "low-moderate"
    liquidity_risk := if lt ∈ ["downtown", "urban"] then "low" else "moderate"
    overall_risk := "moderate" }

end MockAnalysis

/-- A raw property-input dict as seen by the validators: each key may be
absent (`none`).  Values are typed (ints for bedrooms/sqft/age, a number
for bathrooms), matching the numeric inputs the claims quantify over. -/
structure PropertyDataIn where
  address : Option String
  bedrooms : Option ℤ
  bathrooms : Option ℚ
  sqft : Option ℤ
  age_years : Option ℤ
  location_type : Option String
  condition : Option String
  neighborhood_rating : Option String

namespace Validators

/-- `VALID_LOCATION_TYPES` of `utils/validators.py`. -/
def VALID_LOCATION_TYPES : List String := ["downtown", "urban", "suburban", "rural"]

/-- `VALID_CONDITIONS` of `utils/validators.py`. -/
def VALID_CONDITIONS : List String :=
  ["excellent", "good", "fair", "needs_repair", "poor"]

/-- `VALID_NEIGHBORHOOD_RATINGS` of `utils/validators.py`. -/
def VALID_NEIGHBORHOOD_RATINGS : List String :=
  ["excellent", "good", "average", "developing", "poor"]

/-- `validate_location_type` of `utils/validators.py`. -/
def validate_location_type (location_type : String) : Bool × String :=
  if pyLower location_type ∉ VALID_LOCATION_TYPES then
    (false, "Invalid location type. Must be one of: " ++
      String.intercalate ", " VALID_LOCATION_TYPES)
  else (true, "Valid location type")

/-- `validate_condition` of `utils/validators.py`. -/
def validate_condition (condition : String) : Bool × String :=
  if pyLower condition ∉ VALID_CONDITIONS then
    (false, "Invalid condition. Must be one of: " ++
      String.intercalate ", " VALID_CONDITIONS)
  else (true, "Valid condition")

/-- `validate_neighborhood_rating` of `utils/validators.py`. -/
def validate_neighborhood_rating (rating : String) : Bool × String :=
  if pyLower rating ∉ VALID_NEIGHBORHOOD_RATINGS then
    (false, "Invalid rating. Must be one of: " ++
      String.intercalate ", " VALID_NEIGHBORHOOD_RATINGS)
  else (true, "Valid neighborhood rating")

/-- `validate_property_input` of `utils/validators.py`: missing-field
errors first (early return), then range and enumeration checks appended in
source order; returns `(errors == [], errors)`. -/
def validate_property_input (property_data : PropertyDataIn) : Bool × List String :=
  let missing :=
    (if property_data.address = none then ["Missing required field: address"] else []) ++
    (if property_data.bedrooms = none then ["Missing required field: bedrooms"] else []) ++
    (if property_data.bathrooms = none then ["Missing required field: bathrooms"] else []) ++
    (if property_data.sqft = none then ["Missing required field: sqft"] else []) ++
    (if property_data.age_years = none then ["Missing required field: age_years"] else []) ++
    (if property_data.location_type = none then ["Missing required field: location_type"] else []) ++
    (if property_data.condition = none then ["Missing required field: condition"] else []) ++
    (if property_data.neighborhood_rating = none then ["Missing required field: neighborhood_rating"] else [])
  if missing ≠ [] then (false, missing)
  else
    let address := pyStrip (property_data.address.getD "")
    let bedrooms := property_data.bedrooms.getD 0
    let bathrooms := property_data.bathrooms.getD 0
    let sqft := property_data.sqft.getD 0
    let age_years := property_data.age_years.getD 0
    let errors :=
      (if address = "" ∨ address.length < 5 then
        ["Address must be at least 5 characters long"] else []) ++
      (if bedrooms < 1 ∨ bedrooms > 20 then
        ["Bedrooms must be between 1 and 20"] else []) ++
      (if bathrooms < 1/2 ∨ bathrooms > 20 then
        ["Bathrooms must be between 0.5 and 20"] else []) ++
      (if sqft < 500 ∨ sqft > 1000000 then
        ["Square footage must be between 500 and 1,000,000"] else []) ++
      (if age_years < 0 ∨ age_years > 200 then
        ["Property age must be between 0 and 200 years"] else []) ++
      (if (validate_location_type (property_data.location_type.getD "")).1 then []
       else [(validate_location_type (property_data.location_type.getD "")).2]) ++
      (if (validate_condition (property_data.condition.getD "")).1 then []
       else [(validate_condition (property_data.condition.getD "")).2]) ++
      (if (validate_neighborhood_rating (property_data.neighborhood_rating.getD "")).1 then []
       else [(validate_neighborhood_rating (property_data.neighborhood_rating.getD "")).2])
    (errors.isEmpty, errors)

end Validators

namespace ValidationManager

/-- `ValidationManager.validate_property_input` of
`human_intervention/validation_manager.py`: five required fields, per-field
checks only when the key is present, no early return, no lower-casing, no
address-length or neighborhood check.  The `isinstance` tests are
satisfied by construction in this typed embedding. -/
def validate_property_input (property_data : PropertyDataIn) : Bool × List String :=
  let issues :=
    (if property_data.address = none then ["Missing required field: address"] else []) ++
    (if property_data.bedrooms = none then ["Missing required field: bedrooms"] else []) ++
    (if property_data.bathrooms = none then ["Missing required field: bathrooms"] else []) ++
    (if property_data.sqft = none then ["Missing required field: sqft"] else []) ++
    (if property_data.age_years = none then ["Missing required field: age_years"] else []) ++
    (match property_data.bedrooms with
     | none => []
     | some beds => if beds < 1 ∨ beds > 20 then ["Bedrooms must be between 1 and 20"] else []) ++
    (match property_data.bathrooms with
     | none => []
     | some baths => if baths < 1/2 ∨ baths > 20 then ["Bathrooms must be between 0.5 and 20"] else []) ++
    (match property_data.sqft with
     | none => []
     | some sqft => if sqft < 500 ∨ sqft > 1000000 then ["Square footage must be between 500 and 1,000,000"] else []) ++
    (match property_data.age_years with
     | none => []
     | some age => if age < 0 ∨ age > 200 then ["Age must be between 0 and 200 years"] else []) ++
    (match property_data.location_type with
     | none => []
     | some lt => if lt ∉ ["downtown", "urban", "suburban", "rural"] then
         ["Location type must be one of: downtown, urban, suburban, rural"] else []) ++
    (match property_data.condition with
     | none => []
     | some c => if c ∉ ["excellent", "good", "fair", "needs_repair", "poor"] then
         ["Condition must be one of: excellent, good, fair, needs_repair, poor"] else [])
  (issues.isEmpty, issues)

end ValidationManager

namespace ApprovalWorkflow

/-- One entry of an approval record's `approval_history`; the optional
fields are present only on the transitions that set them. -/
structure HistoryEntry where
  action : String
  by_ : String
  timestamp : String
  notes : Option String
  reason : Option String
  revision_count : Option ℕ
deriving DecidableEq

/-- An approval record as built by `create_approval_request` and mutated
by the transitions (`human_intervention/approval_workflow.py`). -/
structure ApprovalRecord where
  analysis_id : String
  property_address : String
  status : String
  created_at : String
  requested_by : String
  reviewed_by : Option String
  reviewed_at : Option String
  approval_notes : String
  estimated_value : ℚ
  investment_score : ℚ
  roi_percentage : ℚ
  revision_count : ℕ
  approval_history : List HistoryEntry
deriving DecidableEq

/-- The workflow's `self.approvals` dict, keyed by analysis id. -/
def State := String → Option ApprovalRecord

/-- The empty workflow (`__init__`). -/
def initState : State := fun _ => none

/-- `create_approval_request`: builds a PENDING record with empty history
and stores it (overwriting any record under the same id).  The
`estimated_value`, `investment_score` and `roi_percentage` arguments stand
for the values read out of the `analysis` dict; `now` stands for
`datetime.now().isoformat()`. -/
def create_approval_request (s : State) (analysis_id property_address : String)
    (estimated_value investment_score roi_percentage : ℚ)
    (requested_by now : String) : ApprovalRecord × State :=
  let approval_request : ApprovalRecord :=
    { analysis_id := analysis_id
      property_address := property_address
      status := "pending"
      created_at := now
      requested_by := requested_by
      reviewed_by := none
      reviewed_at := none
      approval_notes := ""
      estimated_value := estimated_value
      investment_score := investment_score
      roi_percentage := roi_percentage
      revision_count := 0
      approval_history := [] }
  (approval_request,
   fun k => if k = analysis_id then some approval_request else s k)

/-- `submit_for_review`: unknown id yields the error descriptor
`{"error": f"Analysis ... not found"}`, modelled as `.error`. -/
def submit_for_review (s : State) (analysis_id reviewer_name now : String) :
    Except String ApprovalRecord × State :=
  match s analysis_id with
  | none => (.error ("Analysis " ++ analysis_id ++ " not found"), s)
  | some approval =>
    let approval := { approval with
      status := "reviewing"
      reviewed_by := some reviewer_name
      reviewed_at := some now
      approval_history := approval.approval_history ++
        [{ action := "submitted_for_review", by_ := reviewer_name,
           timestamp := now, notes := none, reason := none,
           revision_count := none }] }
    (.ok approval, fun k => if k = analysis_id then some approval else s k)

/-- `approve_analysis`. -/
def approve_analysis (s : State)
    (analysis_id reviewer_name approval_notes now : String) :
    Except String ApprovalRecord × State :=
  match s analysis_id with
  | none => (.error ("Analysis " ++ analysis_id ++ " not found"), s)
  | some approval =>
    let approval := { approval with
      status := "approved"
      reviewed_by := some reviewer_name
      reviewed_at := some now
      approval_notes := approval_notes
      approval_history := approval.approval_history ++
        [{ action := "approved", by_ := reviewer_name, timestamp := now,
           notes := some approval_notes, reason := none,
           revision_count := none }] }
    (.ok approval, fun k => if k = analysis_id then some approval else s k)

/-- `reject_analysis`. -/
def reject_analysis (s : State)
    (analysis_id reviewer_name rejection_reason now : String) :
    Except String ApprovalRecord × State :=
  match s analysis_id with
  | none => (.error ("Analysis " ++ analysis_id ++ " not found"), s)
  | some approval =>
    let approval := { approval with
      status := "rejected"
      reviewed_by := some reviewer_name
      reviewed_at := some now
      approval_notes := rejection_reason
      approval_history := approval.approval_history ++
        [{ action := "rejected", by_ := reviewer_name, timestamp := now,
           notes := none, reason := some rejection_reason,
           revision_count := none }] }
    (.ok approval, fun k => if k = analysis_id then some approval else s k)

/-- `request_revisions`. -/
def request_revisions (s : State)
    (analysis_id reviewer_name revision_notes now : String) :
    Except String ApprovalRecord × State :=
  match s analysis_id with
  | none => (.error ("Analysis " ++ analysis_id ++ " not found"), s)
  | some approval =>
    let rc := approval.revision_count + 1
    let approval := { approval with
      status := "revisions_needed"
      reviewed_by := some reviewer_name
      reviewed_at := some now
      approval_notes := revision_notes
      revision_count := rc
      approval_history := approval.approval_history ++
        [{ action := "revisions_requested", by_ := reviewer_name,
           timestamp := now, notes := some revision_notes, reason := none,
           revision_count := some rc }] }
    (.ok approval, fun k => if k = analysis_id then some approval else s k)

/-- `get_approval_status`: a pure query; unknown id yields the error
descriptor. -/
def get_approval_status (s : State) (analysis_id : String) :
    Except String ApprovalRecord :=
  match s analysis_id with
  | none => .error ("Analysis " ++ analysis_id ++ " not found")
  | some approval => .ok approval

end ApprovalWorkflow

namespace FeedbackHandler

/-- A feedback record as built by `submit_feedback`
(`human_intervention/feedback_handler.py`). -/
structure FeedbackRecord where
  id : ℕ
  timestamp : String
  property_address : String
  feedback_type : String
  feedback_content : String
  analyst_name : String
  confidence_adjustment : ℚ
  status : String
deriving DecidableEq

/-- `submit_feedback`: appends a record with sequential id and the
confidence adjustment clamped to [-1, 1]; `now` stands for
`datetime.now().isoformat()`.  Returns the record and the new history. -/
def submit_feedback (feedback_history : List FeedbackRecord)
    (property_address feedback_type feedback_content analyst_name : String)
    (confidence_adjustment : ℚ) (now : String) :
    FeedbackRecord × List FeedbackRecord :=
  let feedback_record : FeedbackRecord :=
    { id := feedback_history.length + 1
      timestamp := now
      property_address := property_address
      feedback_type := feedback_type
      feedback_content := feedback_content
      analyst_name := analyst_name
      confidence_adjustment := max (-1) (min 1 confidence_adjustment)
      status := "submitted" }
  (feedback_record, feedback_history ++ [feedback_record])

/-- `get_feedback_for_property`: all records whose address matches, in
log order. -/
def get_feedback_for_property (feedback_history : List FeedbackRecord)
    (property_address : String) : List FeedbackRecord :=
  feedback_history.filter (fun f => f.property_address == property_address)

end FeedbackHandler

/-! Arithmetic facts about `roundHalfEven` and `round2`. -/

lemma roundHalfEven_intCast (n : ℤ) : roundHalfEven (n : ℚ) = n := by
  norm_num [roundHalfEven, Int.floor_intCast]

lemma round2_cents (m : ℤ) : round2 ((m : ℚ) / 100) = (m : ℚ) / 100 := by
  have h : ((m : ℚ) / 100) * 100 = (m : ℚ) := by field_simp
  rw [round2, h, roundHalfEven_intCast]

lemma IsCents.round2_eq {q : ℚ} (h : IsCents q) : round2 q = q := by
  obtain ⟨m, rfl⟩ := h
  exact round2_cents m

lemma isCents_round2 (q : ℚ) : IsCents (round2 q) :=
  ⟨roundHalfEven (q * 100), rfl⟩

lemma IsCents.add {a b : ℚ} (ha : IsCents a) (hb : IsCents b) :
    IsCents (a + b) := by
  obtain ⟨m, rfl⟩ := ha
  obtain ⟨n, rfl⟩ := hb
  exact ⟨m + n, by push_cast; ring⟩

lemma abs_roundHalfEven_sub_le (q : ℚ) : |(roundHalfEven q : ℚ) - q| ≤ 1/2 := by
  have h0 : (⌊q⌋ : ℚ) ≤ q := Int.floor_le q
  have h1 : q < ⌊q⌋ + 1 := Int.lt_floor_add_one q
  unfold roundHalfEven
  split_ifs with ha hb hc <;> push_cast <;> rw [abs_le] <;>
    constructor <;> linarith

lemma round2_gap (x y : ℚ) : |round2 x + round2 y - round2 (x + y)| ≤ 1/100 := by
  have hxy : (x + y) * 100 = x * 100 + y * 100 := by ring
  have h1 := abs_roundHalfEven_sub_le (x * 100)
  have h2 := abs_roundHalfEven_sub_le (y * 100)
  have h3 := abs_roundHalfEven_sub_le ((x + y) * 100)
  rw [hxy] at h3
  have hk : |(roundHalfEven (x * 100) : ℚ) + (roundHalfEven (y * 100) : ℚ) -
      (roundHalfEven (x * 100 + y * 100) : ℚ)| ≤ 3/2 := by
    rw [abs_le] at h1 h2 h3 ⊢
    constructor <;> linarith [h1.1, h1.2, h2.1, h2.2, h3.1, h3.2]
  have hcast : ((|roundHalfEven (x * 100) + roundHalfEven (y * 100) -
      roundHalfEven (x * 100 + y * 100)| : ℤ) : ℚ) ≤ 3/2 := by
    push_cast
    exact hk
  have hint : |roundHalfEven (x * 100) + roundHalfEven (y * 100) -
      roundHalfEven (x * 100 + y * 100)| ≤ 1 := by
    have := Int.le_floor.mpr hcast
    simpa using this.trans_eq (by norm_num)
  have hq : ((|roundHalfEven (x * 100) + roundHalfEven (y * 100) -
      roundHalfEven (x * 100 + y * 100)| : ℤ) : ℚ) ≤ 1 := by
    exact_mod_cast hint
  rw [round2, round2, round2, hxy]
  have heq : (roundHalfEven (x * 100) : ℚ) / 100 +
      (roundHalfEven (y * 100) : ℚ) / 100 -
      (roundHalfEven (x * 100 + y * 100) : ℚ) / 100 =
      ((roundHalfEven (x * 100) + roundHalfEven (y * 100) -
        roundHalfEven (x * 100 + y * 100) : ℤ) : ℚ) / 100 := by
    push_cast
    ring
  rw [heq, abs_div, ← Int.cast_abs]
  rw [abs_of_pos (by norm_num : (0:ℚ) < 100)]
  linarith

/-- C1 counterexample: the claim says `calculate_base_valuation` returns
the raw product `sqft × 150 × locM × neighM × condM × ageFactor`, but the
`utils/calculations.py` variant rounds the product to 2 decimal places:
at sqft 1, downtown, excellent neighborhood, excellent condition, age 1,
the product is 321.048 while the function returns 321.05. -/
theorem C1_counterexample :
    Calculations.calculate_base_valuation ⟨1, "downtown", "excellent", "excellent", 1⟩ ≠
      1 * 150 * (14/10) * (13/10) * (12/10) * max (1/2 : ℚ) (1 - (2/100) * 1) := by
  have h1 : List.lookup (pyLower "downtown") Calculations.LOCATION_MULTIPLIERS =
      some (14/10) := rfl
  have h2 : List.lookup (pyLower "excellent") Calculations.NEIGHBORHOOD_FACTORS =
      some (13/10) := rfl
  have h3 : List.lookup (pyLower "excellent") Calculations.CONDITION_FACTORS =
      some (12/10) := rfl
  simp only [Calculations.calculate_base_valuation, h1, h2, h3, Option.getD_some]
  norm_num [round2, roundHalfEven, max_def]

/-- C1 (amended): for every property record whose location, neighborhood
and condition are known enumeration keys, the `utils/calculations.py`
variant of `calculate_base_valuation` returns
`sqft × 150 × locM × neighM × condM × max(0.5, 1 − 0.02·age)` rounded to
2 decimal places, and the `mock_analysis.py` engine variant returns that
product unrounded; in particular both return exactly 240000 on
{sqft 2000, suburban, average, fair, age 10}, with no jitter. -/
theorem C1_base_valuation :
    (∀ (d : PropertyData) (lm nm cm : ℚ),
      List.lookup (pyLower d.location_type) Calculations.LOCATION_MULTIPLIERS = some lm →
      List.lookup (pyLower d.neighborhood_rating) Calculations.NEIGHBORHOOD_FACTORS = some nm →
      List.lookup (pyLower d.condition) Calculations.CONDITION_FACTORS = some cm →
      Calculations.calculate_base_valuation d =
        round2 (d.sqft * 150 * lm * nm * cm *
          max (1/2) (1 - (2/100) * d.age_years)) ∧
      MockAnalysis.calculate_base_valuation d =
        d.sqft * 150 * lm * nm * cm *
          max (1/2) (1 - (2/100) * d.age_years)) ∧
    Calculations.calculate_base_valuation ⟨2000, "suburban", "average", "fair", 10⟩ = 240000 ∧
    MockAnalysis.calculate_base_valuation ⟨2000, "suburban", "average", "fair", 10⟩ = 240000 := by
  have hgen : ∀ (d : PropertyData) (lm nm cm : ℚ),
      List.lookup (pyLower d.location_type) Calculations.LOCATION_MULTIPLIERS = some lm →
      List.lookup (pyLower d.neighborhood_rating) Calculations.NEIGHBORHOOD_FACTORS = some nm →
      List.lookup (pyLower d.condition) Calculations.CONDITION_FACTORS = some cm →
      Calculations.calculate_base_valuation d =
        round2 (d.sqft * 150 * lm * nm * cm *
          max (1/2) (1 - (2/100) * d.age_years)) ∧
      MockAnalysis.calculate_base_valuation d =
        d.sqft * 150 * lm * nm * cm *
          max (1/2) (1 - (2/100) * d.age_years) := by
    intro d lm nm cm h1 h2 h3
    have hmax : (1 : ℚ) - d.age_years * (2/100) = 1 - (2/100) * d.age_years := by
      ring
    constructor
    · simp only [Calculations.calculate_base_valuation, h1, h2, h3,
        Option.getD_some]
      rw [hmax]
    · simp only [MockAnalysis.calculate_base_valuation, h1, h2, h3,
        Option.getD_some]
      rw [hmax]
  refine ⟨hgen, ?_, ?_⟩
  · have h := (hgen ⟨2000, "suburban", "average", "fair", 10⟩ 1 1 1 rfl rfl rfl).1
    rw [h]
    norm_num [round2, roundHalfEven, max_def]
  · have h := (hgen ⟨2000, "suburban", "average", "fair", 10⟩ 1 1 1 rfl rfl rfl).2
    rw [h]
    norm_num [max_def]

/-- C1 witness: the amended theorem applied at a concrete urban record. -/
theorem C1_witness :
    Calculations.calculate_base_valuation ⟨1000, "urban", "good", "good", 0⟩ =
      round2 (1000 * 150 * (12/10) * (11/10) * (11/10) *
        max (1/2) (1 - (2/100) * 0)) ∧
    MockAnalysis.calculate_base_valuation ⟨1000, "urban", "good", "good", 0⟩ =
      1000 * 150 * (12/10) * (11/10) * (11/10) *
        max (1/2) (1 - (2/100) * 0) :=
  C1_base_valuation.1 ⟨1000, "urban", "good", "good", 0⟩ (12/10) (11/10) (11/10)
    rfl rfl rfl

/-- C2 counterexample: in the inline `analyze_property` assembler, the
three stored fields are rounded independently, so the stored rental plus
the stored appreciation need not equal the stored total.  At estimated
valuation 100.52 with a 5% rental-yield draw and a 5% appreciation draw
(both inside the sampled ranges), the stored fields are 5.03, 5.03 and
10.05, and 5.03 + 5.03 ≠ 10.05. -/
theorem C2_counterexample :
    (MockAnalysis.investment_analysis_fields (10052/100) (1/20) (1/20)).annual_rental_potential +
      (MockAnalysis.investment_analysis_fields (10052/100) (1/20) (1/20)).annual_appreciation ≠
      (MockAnalysis.investment_analysis_fields (10052/100) (1/20) (1/20)).total_annual_return := by
  norm_num [MockAnalysis.investment_analysis_fields, round2, roundHalfEven]

/-- C2 (amended): the shared utility `calculate_total_annual_return`
applied to already-computed (2-decimal) rental and appreciation amounts
returns exactly their sum — and `calculate_rental_income` and
`calculate_appreciation` always produce 2-decimal amounts; in the inline
`analyze_property` assembler, whose three output fields are each rounded
independently before being stored, the stored rental plus the stored
appreciation can differ from the stored total, by at most 0.01. -/
theorem C2_total_return :
    (∀ r a : ℚ, IsCents r → IsCents a →
      Calculations.calculate_total_annual_return r a = r + a) ∧
    (∀ v y : ℚ, IsCents (Calculations.calculate_rental_income v y)) ∧
    (∀ v a : ℚ, IsCents (Calculations.calculate_appreciation v a)) ∧
    (∀ v y a : ℚ,
      |(MockAnalysis.investment_analysis_fields v y a).annual_rental_potential +
        (MockAnalysis.investment_analysis_fields v y a).annual_appreciation -
        (MockAnalysis.investment_analysis_fields v y a).total_annual_return| ≤ 1/100) := by
  refine ⟨?_, ?_, ?_, ?_⟩
  · intro r a hr ha
    rw [Calculations.calculate_total_annual_return]
    exact (hr.add ha).round2_eq
  · intro v y
    exact isCents_round2 _
  · intro v a
    exact isCents_round2 _
  · intro v y a
    simp only [MockAnalysis.investment_analysis_fields]
    exact round2_gap (v * y) (v * a)

/-- C2 witness: the amended theorem applied at 1.23 and 0.45. -/
theorem C2_witness :
    Calculations.calculate_total_annual_return (123/100) (45/100) =
      123/100 + 45/100 :=
  C2_total_return.1 (123/100) (45/100) ⟨123, by norm_num⟩ ⟨45, by norm_num⟩

/-- C3: the division guards are total sentinels — `calculate_roi` returns
0 whenever the valuation is ≤ 0, `calculate_payback_period` returns +∞
(modelled `⊤`) whenever the annual return is ≤ 0,
`calculate_price_per_sqft` returns 0 whenever the square footage is ≤ 0,
and all three functions return `.ok` (never raise) on every numeric
input. -/
theorem C3_division_guards :
    (∀ annual_return valuation : ℚ, valuation ≤ 0 →
      Calculations.calculate_roi annual_return valuation = .ok 0) ∧
    (∀ valuation annual_return : ℚ, annual_return ≤ 0 →
      Calculations.calculate_payback_period valuation annual_return = .ok ⊤) ∧
    (∀ (valuation : ℚ) (sqft : ℤ), sqft ≤ 0 →
      Calculations.calculate_price_per_sqft valuation sqft = .ok 0) ∧
    (∀ annual_return valuation : ℚ, ∃ q,
      Calculations.calculate_roi annual_return valuation = .ok q) ∧
    (∀ valuation annual_return : ℚ, ∃ q,
      Calculations.calculate_payback_period valuation annual_return = .ok q) ∧
    (∀ (valuation : ℚ) (sqft : ℤ), ∃ q,
      Calculations.calculate_price_per_sqft valuation sqft = .ok q) := by
  refine ⟨?_, ?_, ?_, ?_, ?_, ?_⟩
  · intro ar v h
    rw [Calculations.calculate_roi, if_pos h]
  · intro v ar h
    rw [Calculations.calculate_payback_period, if_pos h]
  · intro v s h
    rw [Calculations.calculate_price_per_sqft, if_pos h]
  · intro ar v
    by_cases h : v ≤ 0
    · exact ⟨0, by rw [Calculations.calculate_roi, if_pos h]⟩
    · refine ⟨round2 (ar / v * 100), ?_⟩
      rw [Calculations.calculate_roi, if_neg h, pyDiv,
        if_neg (by push_neg at h; exact h.ne')]
      rfl
  · intro v ar
    by_cases h : ar ≤ 0
    · exact ⟨⊤, by rw [Calculations.calculate_payback_period, if_pos h]⟩
    · refine ⟨((round2 (v / ar) : ℚ) : WithTop ℚ), ?_⟩
      rw [Calculations.calculate_payback_period, if_neg h, pyDiv,
        if_neg (by push_neg at h; exact h.ne')]
      rfl
  · intro v s
    by_cases h : s ≤ 0
    · exact ⟨0, by rw [Calculations.calculate_price_per_sqft, if_pos h]⟩
    · refine ⟨round2 (v / (s : ℚ)), ?_⟩
      rw [Calculations.calculate_price_per_sqft, if_neg h, pyDiv,
        if_neg (by push_neg at h; exact_mod_cast (Int.cast_pos.mpr h).ne')]
      rfl

/-- C3 witness: the guard clauses applied at concrete sentinel inputs. -/
theorem C3_witness :
    Calculations.calculate_roi 5 (-1) = .ok 0 ∧
    Calculations.calculate_payback_period 10 0 = .ok ⊤ ∧
    Calculations.calculate_price_per_sqft 10 (-3) = .ok 0 :=
  ⟨C3_division_guards.1 5 (-1) (by norm_num),
   C3_division_guards.2.1 10 0 le_rfl,
   C3_division_guards.2.2.1 10 (-3) (by norm_num)⟩

/-- C5: `calculate_future_value` returns
`round2(present_value × (1 + annual_rate)^years)` for nonnegative rate
and positive years, returns `present_value` unchanged when `years ≤ 0` or
`annual_rate < 0`, and `calculate_future_value(300000, 0.045, 5)` is
within 1 unit of `300000 × 1.045^5`. -/
theorem C5_future_value :
    (∀ (present_value annual_rate : ℚ) (years : ℤ),
      0 ≤ annual_rate → 0 < years →
      Calculations.calculate_future_value present_value annual_rate years =
        round2 (present_value * (1 + annual_rate) ^ years.toNat)) ∧
    (∀ (present_value annual_rate : ℚ) (years : ℤ),
      years ≤ 0 ∨ annual_rate < 0 →
      Calculations.calculate_future_value present_value annual_rate years =
        present_value) ∧
    |Calculations.calculate_future_value 300000 (45/1000) 5 -
      300000 * (1 + 45/1000) ^ (5:ℕ)| ≤ 1 := by
  refine ⟨?_, ?_, ?_⟩
  · intro pv r y hr hy
    rw [Calculations.calculate_future_value,
      if_neg (by push_neg; exact ⟨hy, hr⟩)]
  · intro pv r y h
    rw [Calculations.calculate_future_value, if_pos h]
  · rw [abs_le]
    constructor <;>
      norm_num [Calculations.calculate_future_value, round2, roundHalfEven,
        show Int.toNat 5 = 5 from rfl]

/-- C5 witness: the compound-growth clause applied at 100, 10%, 2 years. -/
theorem C5_witness :
    Calculations.calculate_future_value 100 (1/10) 2 =
      round2 (100 * (1 + 1/10) ^ (2:ℤ).toNat) :=
  C5_future_value.1 100 (1/10) 2 (by norm_num) (by norm_num)

/-- The age risk weight as the specification words it (for the refinement
comparison with `calculate_risk_level`): +3 over 50 years, +2 over 30,
else +0. -/
def spec_age_weight (age_years : ℤ) : ℤ :=
  if age_years > 50 then 3 else if age_years > 30 then 2 else 0

/-- The risk banding as the specification words it (for the refinement
comparison with `calculate_risk_level`): <1.5 low, <2.5 low-moderate,
<3.5 moderate, <4.5 moderate-high, else high. -/
def spec_risk_band (avg : ℚ) : String :=
  if avg < 3/2 then "low"
  else if avg < 5/2 then "low-moderate"
  else if avg < 7/2 then "moderate"
  else if avg < 9/2 then "moderate-high"
  else "high"

/-- C4: for known location and condition keys `calculate_risk_level`
computes the banded 3-way average of the weighted contributions, and the
two quoted examples land in the claimed band sets. -/
theorem C4_risk_level :
    (∀ (location_type condition : String) (age_years : ℤ) (wl wc : ℤ),
      List.lookup (pyLower location_type) Calculations.location_risk_map = some wl →
      List.lookup (pyLower condition) Calculations.condition_risk_map = some wc →
      Calculations.calculate_risk_level location_type condition age_years =
        spec_risk_band (((wl + wc + spec_age_weight age_years : ℤ) : ℚ) / 3)) ∧
    Calculations.calculate_risk_level "downtown" "excellent" 5 ∈
      (["low", "low-moderate"] : List String) ∧
    Calculations.calculate_risk_level "rural" "poor" 70 ∈
      (["moderate-high", "high"] : List String) := by
  have hgen : ∀ (location_type condition : String) (age_years : ℤ) (wl wc : ℤ),
      List.lookup (pyLower location_type) Calculations.location_risk_map = some wl →
      List.lookup (pyLower condition) Calculations.condition_risk_map = some wc →
      Calculations.calculate_risk_level location_type condition age_years =
        spec_risk_band (((wl + wc + spec_age_weight age_years : ℤ) : ℚ) / 3) := by
    intro lt c age wl wc h1 h2
    have hage : (if age > 50 then (3:ℤ) else if age > 30 then 2
        else if age > 50 then 1 else 0) = spec_age_weight age := by
      unfold spec_age_weight
      split_ifs <;> rfl
    simp only [Calculations.calculate_risk_level, h1, h2, Option.getD_some,
      zero_add, hage]
    rfl
  refine ⟨hgen, ?_, ?_⟩
  · rw [hgen "downtown" "excellent" 5 2 1 rfl rfl]
    norm_num [spec_risk_band, spec_age_weight]
  · rw [hgen "rural" "poor" 70 4 5 rfl rfl]
    norm_num [spec_risk_band, spec_age_weight]

/-- C4 witness: the refinement clause applied at a concrete input. -/
theorem C4_witness :
    Calculations.calculate_risk_level "suburban" "fair" 40 =
      spec_risk_band (((3 + 3 + spec_age_weight 40 : ℤ) : ℚ) / 3) :=
  C4_risk_level.1 "suburban" "fair" 40 3 3 rfl rfl

lemma lookup_getD_le (m : List (String × ℤ)) (k : String) (d bnd : ℤ)
    (hd : d ≤ bnd) (hv : ∀ p ∈ m, p.2 ≤ bnd) :
    (List.lookup k m).getD d ≤ bnd := by
  induction m with
  | nil => simpa using hd
  | cons p t ih =>
    obtain ⟨a, b⟩ := p
    rw [List.lookup]
    cases hk : (k == a)
    · simp only [hk]
      exact ih fun q hq => hv q (List.mem_cons_of_mem _ hq)
    · simp only [hk, Option.getD_some]
      exact hv (a, b) (List.mem_cons_self _ _)

/-- C9: `calculate_risk_level` never returns "high": for every location
string, condition string and integer age, the summed weights are at most
4 + 5 + 3 = 12 (defaults included), whose 3-way average 4 is below the
4.5 threshold of the final band; and the source's dead
`elif age_years > 50: risk_score += 1` branch never fires — the age
contribution coincides with the two-branch `spec_age_weight`. -/
theorem C9_risk_never_high :
    (∀ (location_type condition : String) (age_years : ℤ),
      Calculations.calculate_risk_level location_type condition age_years ≠
        "high") ∧
    (∀ age_years : ℤ,
      (if age_years > 50 then (3:ℤ) else if age_years > 30 then 2
       else if age_years > 50 then 1 else 0) = spec_age_weight age_years) := by
  constructor
  case right =>
    intro age
    unfold spec_age_weight
    split_ifs <;> rfl
  case left =>
  intro lt c age
  have hl : (List.lookup (pyLower lt) Calculations.location_risk_map).getD 3 ≤ 4 :=
    lookup_getD_le _ _ _ _ (by norm_num) (by decide)
  have hc : (List.lookup (pyLower c) Calculations.condition_risk_map).getD 3 ≤ 5 :=
    lookup_getD_le _ _ _ _ (by norm_num) (by decide)
  have hage : (if age > 50 then (3:ℤ) else if age > 30 then 2
      else if age > 50 then 1 else 0) ≤ 3 := by
    split_ifs <;> norm_num
  simp only [Calculations.calculate_risk_level, zero_add]
  set S : ℤ := (List.lookup (pyLower lt) Calculations.location_risk_map).getD 3 +
      (List.lookup (pyLower c) Calculations.condition_risk_map).getD 3 +
      (if age > 50 then (3:ℤ) else if age > 30 then 2
        else if age > 50 then 1 else 0) with hS
  have hsum : S ≤ 12 := by
    rw [hS]
    linarith
  have havg : (S : ℚ) / 3 < 9/2 := by
    rw [div_lt_iff₀ (by norm_num : (0:ℚ) < 3)]
    have h12 : (S : ℚ) ≤ 12 := by exact_mod_cast hsum
    linarith
  split_ifs <;> decide

/-- C10: the inline `analyze_property` assembler stores the constant
"low-moderate" as `market_risk` and the constant "moderate" as
`overall_risk`, independent of location, condition (and hence of the
computed `location_risk` and `maintenance_risk`). -/
theorem C10_constant_overall_risk :
    ∀ (location_type condition : String),
      (MockAnalysis.risk_assessment location_type condition).market_risk =
        "low-moderate" ∧
      (MockAnalysis.risk_assessment location_type condition).overall_risk =
        "moderate" := by
  intro lt c
  exact ⟨rfl, rfl⟩

/-- C6: the approval workflow state machine — `create_approval_request`
stores a PENDING record with empty history; approving a stored record
yields an APPROVED record whose history is exactly one entry longer; and
every mutating or querying operation on an unknown id returns the error
descriptor (never raises). -/
theorem C6_approval_workflow :
    (∀ (s : ApprovalWorkflow.State) (analysis_id property_address : String)
        (ev sc roi : ℚ) (requested_by now : String),
      (ApprovalWorkflow.create_approval_request s analysis_id property_address
        ev sc roi requested_by now).1.status = "pending" ∧
      (ApprovalWorkflow.create_approval_request s analysis_id property_address
        ev sc roi requested_by now).1.approval_history = [] ∧
      (ApprovalWorkflow.create_approval_request s analysis_id property_address
        ev sc roi requested_by now).2 analysis_id =
        some (ApprovalWorkflow.create_approval_request s analysis_id
          property_address ev sc roi requested_by now).1) ∧
    (∀ (s : ApprovalWorkflow.State) (analysis_id : String)
        (r : ApprovalWorkflow.ApprovalRecord) (reviewer notes now : String),
      s analysis_id = some r →
      ∃ r2, (ApprovalWorkflow.approve_analysis s analysis_id reviewer notes
          now).1 = .ok r2 ∧
        r2.status = "approved" ∧
        r2.approval_history.length = r.approval_history.length + 1 ∧
        (ApprovalWorkflow.approve_analysis s analysis_id reviewer notes
          now).2 analysis_id = some r2) ∧
    (∀ (s : ApprovalWorkflow.State) (analysis_id reviewer now : String),
      s analysis_id = none →
      (ApprovalWorkflow.submit_for_review s analysis_id reviewer now).1 =
        .error ("Analysis " ++ analysis_id ++ " not found")) ∧
    (∀ (s : ApprovalWorkflow.State) (analysis_id reviewer notes now : String),
      s analysis_id = none →
      (ApprovalWorkflow.approve_analysis s analysis_id reviewer notes now).1 =
        .error ("Analysis " ++ analysis_id ++ " not found")) ∧
    (∀ (s : ApprovalWorkflow.State) (analysis_id reviewer reason now : String),
      s analysis_id = none →
      (ApprovalWorkflow.reject_analysis s analysis_id reviewer reason now).1 =
        .error ("Analysis " ++ analysis_id ++ " not found")) ∧
    (∀ (s : ApprovalWorkflow.State) (analysis_id reviewer notes now : String),
      s analysis_id = none →
      (ApprovalWorkflow.request_revisions s analysis_id reviewer notes now).1 =
        .error ("Analysis " ++ analysis_id ++ " not found")) ∧
    (∀ (s : ApprovalWorkflow.State) (analysis_id : String),
      s analysis_id = none →
      ApprovalWorkflow.get_approval_status s analysis_id =
        .error ("Analysis " ++ analysis_id ++ " not found")) := by
  refine ⟨?_, ?_, ?_, ?_, ?_, ?_, ?_⟩
  · intro s aid addr ev sc roi req now
    refine ⟨rfl, rfl, ?_⟩
    simp [ApprovalWorkflow.create_approval_request]
  · intro s aid r reviewer notes now h
    simp only [ApprovalWorkflow.approve_analysis, h]
    refine ⟨_, rfl, rfl, ?_, ?_⟩
    · simp
    · simp
  · intro s aid reviewer now h
    simp [ApprovalWorkflow.submit_for_review, h]
  · intro s aid reviewer notes now h
    simp [ApprovalWorkflow.approve_analysis, h]
  · intro s aid reviewer reason now h
    simp [ApprovalWorkflow.reject_analysis, h]
  · intro s aid reviewer notes now h
    simp [ApprovalWorkflow.request_revisions, h]
  · intro s aid h
    simp [ApprovalWorkflow.get_approval_status, h]

/-- C6 witness: create a request in the empty workflow, approve it, and
query a missing id. -/
theorem C6_witness :
    (∃ r2, (ApprovalWorkflow.approve_analysis
        (ApprovalWorkflow.create_approval_request ApprovalWorkflow.initState
          "a1" "12 Oak Ave" 240000 7 11 "System" "t0").2
        "a1" "Reviewer" "fine" "t1").1 = .ok r2 ∧
      r2.status = "approved" ∧
      r2.approval_history.length =
        (ApprovalWorkflow.create_approval_request ApprovalWorkflow.initState
          "a1" "12 Oak Ave" 240000 7 11 "System" "t0").1.approval_history.length + 1 ∧
      (ApprovalWorkflow.approve_analysis
        (ApprovalWorkflow.create_approval_request ApprovalWorkflow.initState
          "a1" "12 Oak Ave" 240000 7 11 "System" "t0").2
        "a1" "Reviewer" "fine" "t1").2 "a1" = some r2) ∧
    ApprovalWorkflow.get_approval_status ApprovalWorkflow.initState "nope" =
      .error ("Analysis " ++ "nope" ++ " not found") :=
  ⟨C6_approval_workflow.2.1
      (ApprovalWorkflow.create_approval_request ApprovalWorkflow.initState
        "a1" "12 Oak Ave" 240000 7 11 "System" "t0").2
      "a1"
      (ApprovalWorkflow.create_approval_request ApprovalWorkflow.initState
        "a1" "12 Oak Ave" 240000 7 11 "System" "t0").1
      "Reviewer" "fine" "t1"
      (by simp [ApprovalWorkflow.create_approval_request]),
   C6_approval_workflow.2.2.2.2.2.2 ApprovalWorkflow.initState "nope" rfl⟩

/-- C8: submitting two feedback records for the same address and querying
that address returns exactly those two records in submission order (when
the log held no record for that address); the stored
`confidence_adjustment` is the input clamped to [-1, 1] (1.5 is stored as
1.0); and ids stay sequential: if the n-th record of the log has id n,
that still holds after a submission. -/
theorem C8_feedback_handler :
    (∀ (h : List FeedbackHandler.FeedbackRecord) (addr : String)
        (t1 c1 a1 : String) (conf1 : ℚ) (now1 : String)
        (t2 c2 a2 : String) (conf2 : ℚ) (now2 : String),
      (∀ f ∈ h, f.property_address ≠ addr) →
      FeedbackHandler.get_feedback_for_property
          (FeedbackHandler.submit_feedback
            (FeedbackHandler.submit_feedback h addr t1 c1 a1 conf1 now1).2
            addr t2 c2 a2 conf2 now2).2 addr =
        [(FeedbackHandler.submit_feedback h addr t1 c1 a1 conf1 now1).1,
         (FeedbackHandler.submit_feedback
            (FeedbackHandler.submit_feedback h addr t1 c1 a1 conf1 now1).2
            addr t2 c2 a2 conf2 now2).1]) ∧
    (∀ (h : List FeedbackHandler.FeedbackRecord)
        (addr t c a : String) (conf : ℚ) (now : String),
      (FeedbackHandler.submit_feedback h addr t c a conf
        now).1.confidence_adjustment = max (-1) (min 1 conf)) ∧
    (∀ (h : List FeedbackHandler.FeedbackRecord) (addr t c a now : String),
      (FeedbackHandler.submit_feedback h addr t c a (3/2)
        now).1.confidence_adjustment = 1) ∧
    (∀ (h : List FeedbackHandler.FeedbackRecord)
        (addr t c a : String) (conf : ℚ) (now : String),
      (∀ i (hi : i < h.length), (h.get ⟨i, hi⟩).id = i + 1) →
      ∀ i (hi : i < (FeedbackHandler.submit_feedback h addr t c a conf
          now).2.length),
        ((FeedbackHandler.submit_feedback h addr t c a conf now).2.get
          ⟨i, hi⟩).id = i + 1) := by
  refine ⟨?_, ?_, ?_, ?_⟩
  · intro h addr t1 c1 a1 conf1 now1 t2 c2 a2 conf2 now2 ha
    simp only [FeedbackHandler.submit_feedback,
      FeedbackHandler.get_feedback_for_property]
    have h0 : h.filter (fun f => f.property_address == addr) = [] := by
      rw [List.filter_eq_nil_iff]
      intro f hf
      simp [ha f hf]
    simp [List.filter_append, h0]
  · intro h addr t c a conf now
    rfl
  · intro h addr t c a now
    show max (-1) (min 1 (3/2 : ℚ)) = 1
    norm_num
  · intro h addr t c a conf now hids i hi
    simp only [FeedbackHandler.submit_feedback] at hi ⊢
    rcases Nat.lt_or_ge i h.length with hlt | hge
    · rw [List.get_append _ hlt]
      exact hids i hlt
    · have hieq : i = h.length := by
        simp only [List.length_append, List.length_cons, List.length_nil] at hi
        omega
      subst hieq
      rw [List.get_eq_getElem, List.getElem_concat_length _ _ _ rfl]

/-- C8 witness: the query and id clauses applied to the empty log. -/
theorem C8_witness :
    FeedbackHandler.get_feedback_for_property
        (FeedbackHandler.submit_feedback
          (FeedbackHandler.submit_feedback [] "9 Elm St" "correction" "too high"
            "Ana" (3/10) "t0").2
          "9 Elm St" "approval" "fine now" "Bea" (1/10) "t1").2 "9 Elm St" =
      [(FeedbackHandler.submit_feedback [] "9 Elm St" "correction" "too high"
          "Ana" (3/10) "t0").1,
       (FeedbackHandler.submit_feedback
          (FeedbackHandler.submit_feedback [] "9 Elm St" "correction" "too high"
            "Ana" (3/10) "t0").2
          "9 Elm St" "approval" "fine now" "Bea" (1/10) "t1").1] :=
  C8_feedback_handler.1 [] "9 Elm St" "correction" "too high" "Ana" (3/10) "t0"
    "approval" "fine now" "Bea" (1/10) "t1" (by simp)

lemma pyLower_mem_locations {l : String}
    (h : l ∈ Validators.VALID_LOCATION_TYPES) :
    pyLower l ∈ Validators.VALID_LOCATION_TYPES := by
  have hall : ∀ x ∈ Validators.VALID_LOCATION_TYPES,
      pyLower x ∈ Validators.VALID_LOCATION_TYPES := by decide
  exact hall l h

lemma pyLower_mem_conditions {l : String}
    (h : l ∈ Validators.VALID_CONDITIONS) :
    pyLower l ∈ Validators.VALID_CONDITIONS := by
  have hall : ∀ x ∈ Validators.VALID_CONDITIONS,
      pyLower x ∈ Validators.VALID_CONDITIONS := by decide
  exact hall l h

lemma pyLower_mem_ratings {l : String}
    (h : l ∈ Validators.VALID_NEIGHBORHOOD_RATINGS) :
    pyLower l ∈ Validators.VALID_NEIGHBORHOOD_RATINGS := by
  have hall : ∀ x ∈ Validators.VALID_NEIGHBORHOOD_RATINGS,
      pyLower x ∈ Validators.VALID_NEIGHBORHOOD_RATINGS := by decide
  exact hall l h

/-- C7: both input validators accept a fully-populated in-range record
with zero issues, and both reject an otherwise-valid record with
bedrooms = 25, and one with sqft = 100, each with exactly one reported
issue. -/
theorem C7_validator :
    (∀ (addr : String) (beds : ℤ) (baths : ℚ) (sq age : ℤ)
        (lt cond nr : String),
      ¬(pyStrip addr = "" ∨ (pyStrip addr).length < 5) →
      1 ≤ beds → beds ≤ 20 → 1/2 ≤ baths → baths ≤ 20 →
      500 ≤ sq → sq ≤ 1000000 → 0 ≤ age → age ≤ 200 →
      lt ∈ Validators.VALID_LOCATION_TYPES →
      cond ∈ Validators.VALID_CONDITIONS →
      nr ∈ Validators.VALID_NEIGHBORHOOD_RATINGS →
      Validators.validate_property_input
        ⟨some addr, some beds, some baths, some sq, some age,
         some lt, some cond, some nr⟩ = (true, []) ∧
      ValidationManager.validate_property_input
        ⟨some addr, some beds, some baths, some sq, some age,
         some lt, some cond, some nr⟩ = (true, [])) ∧
    (∀ (addr : String) (baths : ℚ) (sq age : ℤ) (lt cond nr : String),
      ¬(pyStrip addr = "" ∨ (pyStrip addr).length < 5) →
      1/2 ≤ baths → baths ≤ 20 → 500 ≤ sq → sq ≤ 1000000 →
      0 ≤ age → age ≤ 200 →
      lt ∈ Validators.VALID_LOCATION_TYPES →
      cond ∈ Validators.VALID_CONDITIONS →
      nr ∈ Validators.VALID_NEIGHBORHOOD_RATINGS →
      Validators.validate_property_input
        ⟨some addr, some 25, some baths, some sq, some age,
         some lt, some cond, some nr⟩ =
        (false, ["Bedrooms must be between 1 and 20"]) ∧
      ValidationManager.validate_property_input
        ⟨some addr, some 25, some baths, some sq, some age,
         some lt, some cond, some nr⟩ =
        (false, ["Bedrooms must be between 1 and 20"])) ∧
    (∀ (addr : String) (beds : ℤ) (baths : ℚ) (age : ℤ)
        (lt cond nr : String),
      ¬(pyStrip addr = "" ∨ (pyStrip addr).length < 5) →
      1 ≤ beds → beds ≤ 20 → 1/2 ≤ baths → baths ≤ 20 →
      0 ≤ age → age ≤ 200 →
      lt ∈ Validators.VALID_LOCATION_TYPES →
      cond ∈ Validators.VALID_CONDITIONS →
      nr ∈ Validators.VALID_NEIGHBORHOOD_RATINGS →
      Validators.validate_property_input
        ⟨some addr, some beds, some baths, some 100, some age,
         some lt, some cond, some nr⟩ =
        (false, ["Square footage must be between 500 and 1,000,000"]) ∧
      ValidationManager.validate_property_input
        ⟨some addr, some beds, some baths, some 100, some age,
         some lt, some cond, some nr⟩ =
        (false, ["Square footage must be between 500 and 1,000,000"])) := by
  refine ⟨?_, ?_, ?_⟩
  · intro addr beds baths sq age lt cond nr haddr hb1 hb2 ht1 ht2 hs1 hs2
      hg1 hg2 hlt hcond hnr
    have hlt2 := pyLower_mem_locations hlt
    have hcond2 := pyLower_mem_conditions hcond
    have hnr2 := pyLower_mem_ratings hnr
    have hbeds : ¬(beds < 1 ∨ beds > 20) := by omega
    have hbaths : ¬(baths < 1/2 ∨ baths > 20) := by
      rw [not_or]
      exact ⟨not_lt.mpr ht1, not_lt.mpr ht2⟩
    have hsq : ¬(sq < 500 ∨ sq > 1000000) := by omega
    have hage : ¬(age < 0 ∨ age > 200) := by omega
    simp only [Validators.VALID_LOCATION_TYPES, Validators.VALID_CONDITIONS,
      Validators.VALID_NEIGHBORHOOD_RATINGS] at hlt hcond hnr
    constructor
    · simp [Validators.validate_property_input,
        Validators.validate_location_type, Validators.validate_condition,
        Validators.validate_neighborhood_rating, haddr, hbeds, hbaths, hsq,
        hage, hlt2, hcond2, hnr2]
      all_goals exact ⟨by linarith, ht2⟩
    · simp [ValidationManager.validate_property_input, hbeds, hbaths, hsq,
        hage, hlt, hcond]
      all_goals exact ⟨by linarith, ht2⟩
  · intro addr baths sq age lt cond nr haddr ht1 ht2 hs1 hs2 hg1 hg2
      hlt hcond hnr
    have hlt2 := pyLower_mem_locations hlt
    have hcond2 := pyLower_mem_conditions hcond
    have hnr2 := pyLower_mem_ratings hnr
    have hbaths : ¬(baths < 1/2 ∨ baths > 20) := by
      rw [not_or]
      exact ⟨not_lt.mpr ht1, not_lt.mpr ht2⟩
    have hsq : ¬(sq < 500 ∨ sq > 1000000) := by omega
    have hage : ¬(age < 0 ∨ age > 200) := by omega
    simp only [Validators.VALID_LOCATION_TYPES, Validators.VALID_CONDITIONS,
      Validators.VALID_NEIGHBORHOOD_RATINGS] at hlt hcond hnr
    have h25 : ((25:ℤ) < 1 ∨ (25:ℤ) > 20) := by norm_num
    constructor
    · simp [Validators.validate_property_input,
        Validators.validate_location_type, Validators.validate_condition,
        Validators.validate_neighborhood_rating, haddr, hbaths, hsq,
        hage, hlt2, hcond2, hnr2, h25]
      all_goals exact ⟨by linarith, ht2⟩
    · simp [ValidationManager.validate_property_input, hbaths, hsq,
        hage, hlt, hcond, h25]
      all_goals exact ⟨by linarith, ht2⟩
  · intro addr beds baths age lt cond nr haddr hb1 hb2 ht1 ht2 hg1 hg2
      hlt hcond hnr
    have hlt2 := pyLower_mem_locations hlt
    have hcond2 := pyLower_mem_conditions hcond
    have hnr2 := pyLower_mem_ratings hnr
    have hbeds : ¬(beds < 1 ∨ beds > 20) := by omega
    have hbaths : ¬(baths < 1/2 ∨ baths > 20) := by
      rw [not_or]
      exact ⟨not_lt.mpr ht1, not_lt.mpr ht2⟩
    have hage : ¬(age < 0 ∨ age > 200) := by omega
    simp only [Validators.VALID_LOCATION_TYPES, Validators.VALID_CONDITIONS,
      Validators.VALID_NEIGHBORHOOD_RATINGS] at hlt hcond hnr
    have h100 : ((100:ℤ) < 500 ∨ (100:ℤ) > 1000000) := by norm_num
    constructor
    · simp [Validators.validate_property_input,
        Validators.validate_location_type, Validators.validate_condition,
        Validators.validate_neighborhood_rating, haddr, hbeds, hbaths,
        hage, hlt2, hcond2, hnr2, h100]
      all_goals exact ⟨by linarith, ht2⟩
    · simp [ValidationManager.validate_property_input, hbeds, hbaths,
        hage, hlt, hcond, h100]
      all_goals exact ⟨by linarith, ht2⟩

/-- C7 witness: the acceptance clause applied at a concrete in-range
record. -/
theorem C7_witness :
    Validators.validate_property_input
      ⟨some "123 Main Street", some 3, some 2, some 1500, some 10,
       some "suburban", some "good", some "average"⟩ = (true, []) ∧
    ValidationManager.validate_property_input
      ⟨some "123 Main Street", some 3, some 2, some 1500, some 10,
       some "suburban", some "good", some "average"⟩ = (true, []) :=
  C7_validator.1 "123 Main Street" 3 2 1500 10 "suburban" "good" "average"
    (by decide) (by norm_num) (by norm_num) (by norm_num) (by norm_num)
    (by norm_num) (by norm_num) (by norm_num) (by norm_num)
    (by decide) (by decide) (by decide)
